import Mathlib

/-!
Shallow embedding of the Expense-Tracker starter's session-gated navigation
guard (`src/middleware.ts`) and of the Supabase context-provider code
(`SupabaseAuthProvider` / `SupabaseProvider` in `src/app/page.tsx`), together
with proofs of the specification's testable properties.
-/

/-- A parsed URL as the middleware manipulates it.  Both `new URL(req.url)`
and `req.nextUrl.clone()` denote the inbound request's URL; the middleware
only ever reassigns the `pathname` component. -/
structure Url where
  origin : String
  pathname : String
  search : String
  hash : String
deriving DecidableEq, Repr

/-- An inbound Next.js request, carrying its URL (`req.url` as a string and
`req.nextUrl` as a parsed object denote the same URL). -/
structure NextRequest where
  url : Url
deriving DecidableEq, Repr

/-- A backend session.  The middleware only checks presence or absence; the
auth provider additionally reads `access_token` and `user.id`. -/
structure Session where
  access_token : String
  user_id : String
deriving DecidableEq, Repr

/-- Outcome of `await supabase.auth.getSession()` as observed at the call
site in `middleware`: either the call returns `{ data: { session } }`
(possibly alongside an error object, which the middleware never reads
because it destructures only `data.session`), or the awaited promise
rejects, i.e. the call throws. -/
inductive SessionLookup where
  | returned (session : Option Session) (err : Option String)
  | thrown
deriving DecidableEq, Repr

/-- The response produced by the middleware: `NextResponse.next()`
(pass-through) or `NextResponse.redirect(url)`. -/
inductive MwResponse where
  | next
  | redirect (url : Url)
deriving DecidableEq, Repr

/-- The assignment `url.pathname = p` on a URL object: every other component
is left unchanged. -/
def setPathname (u : Url) (p : String) : Url :=
  { u with pathname := p }

/-- The `middleware` function of `src/middleware.ts`.  After the session
lookup it tests `!session && pathname === "/"` (redirect to `/login`), then
`session && pathname === "/login"` (redirect to `/`), and otherwise returns
the pass-through response.  `middleware` is an async function with no
try/catch, so a lookup that throws makes the returned promise reject,
modelled as `Except.error`. -/
def middleware (req : NextRequest) (lookup : SessionLookup) : Except Unit MwResponse :=
  match lookup with
  | .thrown => .error ()
  | .returned session _err =>
    let pathname := req.url.pathname
    if session.isNone && pathname == "/" then
      .ok (.redirect (setPathname req.url "/login"))
    else if session.isSome && pathname == "/login" then
      .ok (.redirect (setPathname req.url "/"))
    else
      .ok .next

/-- A concrete root-path request used to instantiate the guard theorems. -/
def reqRoot : NextRequest :=
  ⟨⟨"http://localhost:3000", "/", "?tab=1", ""⟩⟩

/-- A concrete `/login` request used to instantiate the guard theorems. -/
def reqLogin : NextRequest :=
  ⟨⟨"http://localhost:3000", "/login", "", ""⟩⟩

/-- A concrete session value used to instantiate the guard theorems. -/
def sess : Session :=
  ⟨"tok-1", "user-1"⟩

/-- Claim C1: on a request whose path is the root path `/`, when the session
lookup returns no session (with or without an error object), the middleware
returns a redirect whose target is the request URL with pathname `/login`. -/
theorem middleware_root_no_session (req : NextRequest) (e : Option String)
    (h : req.url.pathname = "/") :
    middleware req (SessionLookup.returned none e) =
      Except.ok (MwResponse.redirect (setPathname req.url "/login")) := by
  simp [middleware, h]

/-- Witness for C1 at a concrete root-path request. -/
theorem middleware_root_no_session_witness :
    middleware reqRoot (SessionLookup.returned none none) =
      Except.ok (MwResponse.redirect (setPathname reqRoot.url "/login")) :=
  middleware_root_no_session reqRoot none rfl

/-- Claim C2: on a request whose path is `/login`, when the session lookup
yields a session, the middleware returns a redirect whose target is the
request URL with pathname `/`. -/
theorem middleware_login_with_session (req : NextRequest) (s : Session) (e : Option String)
    (h : req.url.pathname = "/login") :
    middleware req (SessionLookup.returned (some s) e) =
      Except.ok (MwResponse.redirect (setPathname req.url "/")) := by
  simp [middleware, h]

/-- Witness for C2 at a concrete `/login` request with a session present. -/
theorem middleware_login_with_session_witness :
    middleware reqLogin (SessionLookup.returned (some sess) none) =
      Except.ok (MwResponse.redirect (setPathname reqLogin.url "/")) :=
  middleware_login_with_session reqLogin sess none rfl

/-- Claim C3: for every (path, session) combination other than (root, no
session) and (`/login`, session present), the middleware returns the
pass-through response. -/
theorem middleware_pass_through (req : NextRequest) (session : Option Session)
    (e : Option String)
    (h1 : ¬ (session = none ∧ req.url.pathname = "/"))
    (h2 : ¬ (session ≠ none ∧ req.url.pathname = "/login")) :
    middleware req (SessionLookup.returned session e) = Except.ok MwResponse.next := by
  cases session with
  | none =>
    have hp : req.url.pathname ≠ "/" := fun hp => h1 ⟨rfl, hp⟩
    simp [middleware, hp]
  | some s =>
    have hp : req.url.pathname ≠ "/login" := fun hp => h2 ⟨Option.some_ne_none s, hp⟩
    simp [middleware, hp]

/-- A concrete request outside both guarded paths. -/
def reqOther : NextRequest :=
  ⟨⟨"http://localhost:3000", "/dashboard", "", ""⟩⟩

/-- Witness for C3: a request to `/dashboard` with no session passes through. -/
theorem middleware_pass_through_witness :
    middleware reqOther (SessionLookup.returned none none) = Except.ok MwResponse.next :=
  middleware_pass_through reqOther none none (by decide) (by decide)

/-- Counterexample for C4: when the session lookup throws on a root-path
request, the middleware does not produce the `/login` redirect; the failure
propagates as a rejected promise. -/
theorem middleware_thrown_propagates :
    middleware reqRoot SessionLookup.thrown = Except.error () ∧
      middleware reqRoot SessionLookup.thrown ≠
        Except.ok (MwResponse.redirect (setPathname reqRoot.url "/login")) := by
  exact ⟨rfl, by simp [middleware]⟩

/-- Claim C4 as amended: a session lookup that returns an error object with
no session is treated identically to a clean no-session lookup (the
middleware never reads the error field), while a session lookup that throws
propagates the failure out of the middleware instead of redirecting. -/
theorem middleware_lookup_failure :
    (∀ (req : NextRequest) (e : String),
        middleware req (SessionLookup.returned none (some e)) =
          middleware req (SessionLookup.returned none none)) ∧
    (∀ req : NextRequest, middleware req SessionLookup.thrown = Except.error ()) := by
  exact ⟨fun _ _ => rfl, fun _ => rfl⟩

/-- Claim C9: whenever the middleware redirects, the target URL is the
request's URL with only the pathname replaced (by `/login` or `/`); the
origin, query string and fragment are unchanged. -/
theorem middleware_redirect_frame (req : NextRequest) (lookup : SessionLookup) (u : Url)
    (h : middleware req lookup = Except.ok (MwResponse.redirect u)) :
    u.origin = req.url.origin ∧ u.search = req.url.search ∧ u.hash = req.url.hash ∧
      (u.pathname = "/login" ∨ u.pathname = "/") := by
  cases lookup with
  | thrown => simp [middleware] at h
  | returned session e =>
    simp only [middleware] at h
    split at h
    · have hu : u = setPathname req.url "/login" := by
        simpa using h.symm
      subst hu
      simp [setPathname]
    · split at h
      · have hu : u = setPathname req.url "/" := by
          simpa using h.symm
        subst hu
        simp [setPathname]
      · simp at h

/-- Witness for C9 at the concrete no-session root-path redirect. -/
theorem middleware_redirect_frame_witness :
    (setPathname reqRoot.url "/login").origin = reqRoot.url.origin ∧
      (setPathname reqRoot.url "/login").search = reqRoot.url.search ∧
      (setPathname reqRoot.url "/login").hash = reqRoot.url.hash ∧
      ((setPathname reqRoot.url "/login").pathname = "/login" ∨
        (setPathname reqRoot.url "/login").pathname = "/") :=
  middleware_redirect_frame reqRoot (SessionLookup.returned none none)
    (setPathname reqRoot.url "/login") rfl

/-- A row of the `profiles` table (columns from the User Management Starter
schema the documentation installs). -/
structure Profile where
  id : String
  updated_at : Option String
  username : Option String
  full_name : Option String
  avatar_url : Option String
  website : Option String
deriving DecidableEq, Repr

/-- Outcome of the backend call
`supabase.from("profiles").select("*").eq("id", uid).single()` as seen at
the call site in `getUser`: a `{ data, error }` pair holding either the
single row or an error object. -/
inductive QueryResult where
  | row (p : Profile)
  | failed (msg : String)
deriving DecidableEq, Repr

/-- Error message `.single()` produces when the filtered result does not
hold exactly one row. -/
def singleErrMsg : String :=
  "JSON object requested, multiple (or no) rows returned"

/-- The backend's evaluation of the `getUser` query against table state
`db`: filter the `profiles` rows by `id = uid`, then `.single()` demands
exactly one row and errors otherwise. -/
def profilesSingle (db : List Profile) (uid : String) : QueryResult :=
  match db.filter (fun r => r.id == uid) with
  | [p] => .row p
  | _ => .failed singleErrMsg

/-- The `getUser` function of `SupabaseAuthProvider`, applied to the outcome
of its profiles query: on error it logs the error and resolves to `null`,
otherwise it resolves to the fetched row.  The second component is the list
of messages logged via `console.log`. -/
def getUser (queryResult : QueryResult) : Option Profile × List String :=
  match queryResult with
  | .failed e => (none, [e])
  | .row u => (some u, [])

/-- One invocation of `getUser` against table state `db` for user id `uid`:
the query is a read, so the table state after the call is returned
unchanged alongside the resolved value and the log. -/
def getUserOn (db : List Profile) (uid : String) :
    (Option Profile × List String) × List Profile :=
  (getUser (profilesSingle db uid), db)

/-- Claim C5: `getUser` resolves to `null` after logging the error whenever
its single-row lookup returns an error, and to the fetched row otherwise. -/
theorem getUser_error_handling (q : QueryResult) :
    (∀ e, q = QueryResult.failed e → getUser q = (none, [e])) ∧
    (∀ p, q = QueryResult.row p → getUser q = (some p, [])) := by
  constructor
  · intro e he
    subst he
    rfl
  · intro p hp
    subst hp
    rfl

/-- Witness for C5: on an erroring lookup, `getUser` resolves to `null` and
logs the error message. -/
theorem getUser_error_handling_witness :
    getUser (QueryResult.failed singleErrMsg) = (none, [singleErrMsg]) :=
  (getUser_error_handling (QueryResult.failed singleErrMsg)).1 singleErrMsg rfl

/-- Claim C8: the profile fetch is idempotent: it leaves the table state
unchanged, and a second invocation with the same user id against the state
left by the first resolves to the same profile row. -/
theorem getUser_idempotent (db : List Profile) (uid : String) :
    (getUserOn db uid).2 = db ∧
      (getUserOn (getUserOn db uid).2 uid).1.1 = (getUserOn db uid).1.1 := by
  exact ⟨rfl, rfl⟩

/-- Outcome of `supabase.auth.signInWithPassword({ email, password })` as
seen at the call site: success, or a `{ error }` object carrying a message. -/
inductive AuthResult where
  | success
  | failed (message : String)
deriving DecidableEq, Repr

/-- The `signInWithEmail` function of `SupabaseAuthProvider`: it invokes the
backend's `signInWithPassword` once with the given email and password,
returning the error message on failure and `null` on success.  The second
component is the trace of backend sign-in calls the invocation makes. -/
def signInWithEmail (backend : String → String → AuthResult)
    (email password : String) : Option String × List (String × String) :=
  match backend email password with
  | .failed m => (some m, [(email, password)])
  | .success => (none, [(email, password)])

/-- Claim C6: `signInWithEmail` returns the backend's error message when the
sign-in call fails and `null` when it succeeds, and in either case it makes
exactly one backend call (no retry). -/
theorem signInWithEmail_spec (backend : String → String → AuthResult)
    (email password : String) :
    (∀ m, backend email password = AuthResult.failed m →
        (signInWithEmail backend email password).1 = some m) ∧
    (backend email password = AuthResult.success →
        (signInWithEmail backend email password).1 = none) ∧
    (signInWithEmail backend email password).2 = [(email, password)] := by
  refine ⟨?_, ?_, ?_⟩
  · intro m hm
    simp [signInWithEmail, hm]
  · intro hs
    simp [signInWithEmail, hs]
  · cases hb : backend email password <;> simp [signInWithEmail, hb]

/-- A backend that rejects every email/password pair with a fixed message. -/
def backendRejecting : String → String → AuthResult :=
  fun _ _ => AuthResult.failed "Invalid login credentials"

/-- Witness for C6: against a rejecting backend, `signInWithEmail` returns
the backend's error message. -/
theorem signInWithEmail_spec_witness :
    (signInWithEmail backendRejecting "a@b.c" "pw").1 = some "Invalid login credentials" :=
  (signInWithEmail_spec backendRejecting "a@b.c" "pw").1 "Invalid login credentials" rfl

/-- The callback `SupabaseAuthProvider` registers with
`supabase.auth.onAuthStateChange`: it invokes `router.refresh()` exactly
when `session?.access_token !== serverSession?.access_token` (in JavaScript
an absent session reads as `undefined`, modelled by `Option.map`).  The
returned Bool records whether `router.refresh()` is called. -/
def authStateChangeCallback (serverSession : Option Session) (_event : String)
    (session : Option Session) : Bool :=
  decide (session.map Session.access_token ≠ serverSession.map Session.access_token)

/-- Counterexample for C7: an auth-state-change notification whose session
carries the same access token as the server session does not trigger
`router.refresh()`. -/
theorem authStateChange_same_token_no_refresh :
    authStateChangeCallback (some sess) "TOKEN_REFRESHED" (some sess) = false := by
  decide

/-- Claim C7 as amended: the auth-state-change callback triggers
`router.refresh()` exactly when the delivered session's access token
differs from the server session's access token. -/
theorem authStateChange_refresh_iff (serverSession : Option Session) (event : String)
    (session : Option Session) :
    authStateChangeCallback serverSession event session = true ↔
      session.map Session.access_token ≠ serverSession.map Session.access_token := by
  simp [authStateChangeCallback]

/-- Witness for C7 (amended) at a concrete changed-token notification. -/
theorem authStateChange_refresh_iff_witness :
    authStateChangeCallback none "SIGNED_IN" (some sess) = true :=
  (authStateChange_refresh_iff none "SIGNED_IN" (some sess)).mpr (by decide)

/-- A handle to the Supabase client, opaque to this repository. -/
structure SupabaseClient where
  handle : Nat
deriving DecidableEq, Repr

/-- The value type of `SupabaseProvider`'s context:
`type SupabaseContext = { supabase: SupabaseClient<Database> }`.  The
context itself is created with default `undefined`
(`createContext<SupabaseContext | undefined>(undefined)`). -/
structure SupabaseContextV where
  supabase : SupabaseClient
deriving DecidableEq, Repr

/-- The value type of `SupabaseAuthProvider`'s context (`ContextI`): the
profile and fetch state plus the exposed operations. -/
structure ContextI where
  user : Option Profile
  error : Option String
  isLoading : Bool
  mutate : Option Unit
  signOutOp : Unit → Unit
  signInWithGithubOp : Unit → Unit
  signInWithEmailOp : String → String → Option String

/-- The default value the auth context is created with:
`createContext<ContextI>({ user: null, error: null, isLoading: true,
mutate: null, ...no-op functions })` — a concrete object, not `undefined`. -/
def authContextDefault : ContextI where
  user := none
  error := none
  isLoading := true
  mutate := none
  signOutOp := fun _ => ()
  signInWithGithubOp := fun _ => ()
  signInWithEmailOp := fun _ _ => none

/-- React's `useContext`: the innermost enclosing provider's value when one
exists, otherwise the value the context was created with.  `α` is the
context's TypeScript value type, so a context whose values may be
`undefined` instantiates `α` at an `Option`. -/
def useContextReact (provided : Option α) (dflt : α) : α :=
  provided.getD dflt

/-- The `useSupabase` hook: reads a context whose default is `undefined` and
throws when the read value is `undefined`, i.e. whenever no
`SupabaseProvider` encloses the caller. -/
def useSupabase (provided : Option SupabaseContextV) : Except String SupabaseContextV :=
  match useContextReact (provided.map some) none with
  | none => .error "useSupabase must be used inside SupabaseProvider"
  | some c => .ok c

/-- The `useAuth` hook: reads the auth context (whose default is the
concrete `authContextDefault` object) and throws only when the read value
is `undefined`. -/
def useAuth (provided : Option ContextI) : Except String ContextI :=
  match useContextReact (provided.map some) (some authContextDefault) with
  | none => .error "useAuth must be used inside SupabaseAuthProvider"
  | some c => .ok c

/-- Claim C10: `useAuth` never throws — its undefined-context branch is
unreachable because the context default is a concrete object, so outside a
provider it silently returns the default context — whereas `useSupabase`
outside its provider does throw. -/
theorem useAuth_never_throws :
    (∀ provided : Option ContextI, ∃ c, useAuth provided = Except.ok c) ∧
    useAuth none = Except.ok authContextDefault ∧
    useSupabase none = Except.error "useSupabase must be used inside SupabaseProvider" := by
  refine ⟨?_, rfl, rfl⟩
  intro provided
  cases provided with
  | none => exact ⟨authContextDefault, rfl⟩
  | some c => exact ⟨c, rfl⟩
